import Mathlib

/-!
Shallow embedding of `src/scene.rs` from the rust3d repository.

The Rust code wraps a glium rendering context: a `Scene` stores a vertex
list, an index list, a material table keyed by `u8`, an optional uniform
bundle, and two lazily cached GPU buffers (`Option<VertexBuffer>`,
`Option<IndexBuffer>`).  `draw` builds the missing buffers, then submits a
clear + one indexed draw call + finish.

Modelling choices:
- GPU side effects become an emitted trace of `GpuCmd` values.
- Rust panics become `DrawError` values carrying the panic message; `draw`
  returns the mutated scene alongside the result, reflecting the `&mut self`
  mutations performed before the panic point.
- `u8` counters are `Nat` with arithmetic modulo 2^8 (release-mode wrapping
  semantics of `+=`).
- `f32` fields carry `Float`; no floating arithmetic occurs in the code, so
  only construction and propagation of the values matter.
- `HashMap<u8, Material>` is an association list whose insert replaces any
  earlier binding of the key.
-/

/-- `Vertex` from scene.rs: position, texture coordinate, material id (u8). -/
structure Vertex where
  pos : Float × Float × Float
  uv : Float × Float
  material_id : Nat

/-- `Vertex::new(x, y, z)` from scene.rs. -/
def Vertex.new (x y z : Float) : Vertex :=
  { pos := (x, y, z), uv := (0.0, 1.0), material_id := 0 }

/-- `glium::texture::Texture2d`: an opaque GPU texture handle. -/
structure Texture2d where
  handle : Nat

/-- `MaterialField<T>` from scene.rs. -/
structure MaterialField (T : Type) where
  value : Option T
  texture : Option Texture2d

/-- `Material` from scene.rs. -/
structure Material where
  diffuse : MaterialField (Float × Float × Float)
  specularity : MaterialField Float

/-- `Material::new` from scene.rs. -/
def Material.new (diffuse : MaterialField (Float × Float × Float))
    (specularity : MaterialField Float) : Material :=
  { diffuse := diffuse, specularity := specularity }

/-- `glium::index::PrimitiveType` (only the variant the code uses matters). -/
inductive PrimitiveType where
  | TrianglesList
  | other
deriving DecidableEq

/-- A GPU-resident vertex buffer: the data it was uploaded from. -/
structure VertexBufferObj where
  data : List Vertex

/-- A GPU-resident index buffer: primitive type and uploaded index data. -/
structure IndexBufferObj where
  prim : PrimitiveType
  data : List Nat

/-- `&Default::default()` draw parameters (default rasterizer/blend state). -/
inductive DrawParameters where
  | default
deriving DecidableEq

/-- The panics `Scene` can raise, one per `panic!`/`unwrap` site in scene.rs. -/
inductive DrawError where
  | missingIndices
  | missingUniforms
  | noVertexBuffer
  | noIndexBuffer
deriving DecidableEq

/-- The panic message of each error, verbatim from scene.rs. -/
def DrawError.message : DrawError → String
  | .missingIndices => "Missing indices"
  | .missingUniforms => "Cannot draw before specifing uniforms"
  | .noVertexBuffer => "Impossible to find any vertex buffer for this scene"
  | .noIndexBuffer => "Impossible to find any index buffer for this scene"

/-- Commands issued to the glium backend, in order, by `Scene` methods.
`U` is the uniform bundle type, `Prog` the shader program handle type. -/
inductive GpuCmd (U Prog : Type) where
  | createVertexBuffer (data : List Vertex)
  | createIndexBuffer (prim : PrimitiveType) (data : List Nat)
  | newFrame
  | clearColor (r g b a : Float)
  | drawIndexed (vb : List Vertex) (prim : PrimitiveType) (ib : List Nat)
      (prog : Prog) (uni : U) (params : DrawParameters)
  | finishFrame

/-- `Scene<U>` from scene.rs. -/
structure Scene (U : Type) where
  vertices : List Vertex
  indices : List Nat
  vertex_buffer : Option VertexBufferObj
  index_buffer : Option IndexBufferObj
  uniforms : Option U
  materials : List (Nat × Material)
  id_counter : Nat

namespace Scene

variable {U Prog : Type}

/-- `Scene::new()`. -/
def new : Scene U :=
  { vertices := [], indices := [], materials := [], id_counter := 0,
    vertex_buffer := none, index_buffer := none, uniforms := none }

/-- `Scene::set_vertices`. -/
def set_vertices (s : Scene U) (vertices : List Vertex) : Scene U :=
  { s with vertices := vertices, vertex_buffer := none, index_buffer := none }

/-- `Scene::set_indices`. -/
def set_indices (s : Scene U) (indices : List Nat) : Scene U :=
  { s with indices := indices, vertex_buffer := none, index_buffer := none }

/-- `Scene::set_materials`. -/
def set_materials (s : Scene U) (materials : List (Nat × Material)) : Scene U :=
  { s with materials := materials }

/-- `HashMap::insert`: the new binding replaces any earlier one for the key. -/
def mapInsert (m : List (Nat × Material)) (k : Nat) (v : Material) :
    List (Nat × Material) :=
  (k, v) :: m.filter (fun p => p.1 ≠ k)

/-- `Scene::add_material`: `self.id_counter += 1` on a `u8` wraps mod 2^8. -/
def add_material (s : Scene U) (material : Material) : Scene U :=
  let c := (s.id_counter + 1) % 256
  { s with id_counter := c, materials := mapInsert s.materials c material }

/-- `Scene::set_uniforms`. -/
def set_uniforms (s : Scene U) (uniforms : U) : Scene U :=
  { s with uniforms := some uniforms }

/-- `Scene::get_vertex_buffer`: uploads the current vertex list. -/
def get_vertex_buffer (s : Scene U) :
    VertexBufferObj × List (GpuCmd U Prog) :=
  (⟨s.vertices⟩, [.createVertexBuffer s.vertices])

/-- `Scene::get_index_buffer`: uploads the current index list as a triangle
list, or panics with "Missing indices" when the list is empty. -/
def get_index_buffer (s : Scene U) :
    Except DrawError (IndexBufferObj × List (GpuCmd U Prog)) :=
  if s.indices.length > 0 then
    .ok (⟨.TrianglesList, s.indices⟩,
      [.createIndexBuffer .TrianglesList s.indices])
  else
    .error .missingIndices

/-- `Scene::update_vertex_buffer`: build-if-absent. -/
def update_vertex_buffer (s : Scene U) : Scene U × List (GpuCmd U Prog) :=
  if s.vertex_buffer.isNone then
    let r := @get_vertex_buffer U Prog s
    ({ s with vertex_buffer := some r.1 }, r.2)
  else
    (s, [])

/-- `Scene::update_index_buffer`: build-if-absent; propagates the
"Missing indices" panic, in which case the scene is unchanged. -/
def update_index_buffer (s : Scene U) :
    Except DrawError (Scene U × List (GpuCmd U Prog)) :=
  if s.index_buffer.isNone then
    match @get_index_buffer U Prog s with
    | .error e => .error e
    | .ok r => .ok ({ s with index_buffer := some r.1 }, r.2)
  else
    .ok (s, [])

/-- The outcome of `Scene::draw`: result (a panic becomes `.error`), the
scene state after the call (mutations before a panic persist), and the
GPU commands issued before returning or panicking. -/
structure DrawOutcome (U Prog : Type) where
  result : Except DrawError Unit
  scene : Scene U
  cmds : List (GpuCmd U Prog)

/-- `Scene::draw`: ensure the vertex buffer, ensure the index buffer, then
require uniforms and submit clear + one indexed draw + finish. -/
def draw (s : Scene U) (prog : Prog) : DrawOutcome U Prog :=
  let r1 := @update_vertex_buffer U Prog s
  match @update_index_buffer U Prog r1.1 with
  | .error e => ⟨.error e, r1.1, r1.2⟩
  | .ok r2 =>
    let s2 := r2.1
    match s2.vertex_buffer with
    | none => ⟨.error .noVertexBuffer, s2, r1.2 ++ r2.2⟩
    | some vb =>
      match s2.index_buffer with
      | none => ⟨.error .noIndexBuffer, s2, r1.2 ++ r2.2⟩
      | some ib =>
        match s2.uniforms with
        | none => ⟨.error .missingUniforms, s2, r1.2 ++ r2.2⟩
        | some un =>
          ⟨.ok (), s2,
            r1.2 ++ r2.2 ++
              [.newFrame, .clearColor 0.0 0.0 1.0 1.0,
               .drawIndexed vb.data ib.prim ib.data prog un .default,
               .finishFrame]⟩

end Scene

/-- The public operations on a `Scene`, for stating state-machine claims. -/
inductive Op (U Prog : Type) where
  | set_vertices (vs : List Vertex)
  | set_indices (idxs : List Nat)
  | set_materials (m : List (Nat × Material))
  | add_material (mat : Material)
  | set_uniforms (u : U)
  | draw (prog : Prog)

/-- Applying one operation to a scene (the state part; `draw` discards its
result and command trace). -/
def applyOp {U Prog : Type} (s : Scene U) : Op U Prog → Scene U
  | .set_vertices vs => s.set_vertices vs
  | .set_indices idxs => s.set_indices idxs
  | .set_materials m => s.set_materials m
  | .add_material mat => s.add_material mat
  | .set_uniforms u => s.set_uniforms u
  | .draw prog => (s.draw prog).scene

/-- Whether a command is a vertex-buffer upload. -/
def isCreateVB {U Prog : Type} : GpuCmd U Prog → Bool
  | .createVertexBuffer _ => true
  | _ => false

/-- Whether a command is an index-buffer upload. -/
def isCreateIB {U Prog : Type} : GpuCmd U Prog → Bool
  | .createIndexBuffer _ _ => true
  | _ => false

/-- Number of vertex-buffer uploads in a command trace. -/
def countVB {U Prog : Type} (cs : List (GpuCmd U Prog)) : Nat :=
  (cs.filter isCreateVB).length

/-- Number of index-buffer uploads in a command trace. -/
def countIB {U Prog : Type} (cs : List (GpuCmd U Prog)) : Nat :=
  (cs.filter isCreateIB).length

/-- Whether a command belongs to frame rendering (acquire, clear, draw,
present): exactly the commands a failing `draw` must not have issued. -/
def isFrameCmd {U Prog : Type} : GpuCmd U Prog → Bool
  | .newFrame => true
  | .clearColor _ _ _ _ => true
  | .drawIndexed _ _ _ _ _ _ => true
  | .finishFrame => true
  | _ => false

/-- A concrete material value for concrete evaluations. -/
def mat0 : Material :=
  { diffuse := { value := none, texture := none },
    specularity := { value := none, texture := none } }

/-- The scene obtained from `Scene::new` by `n` successive
`add_material mat0` calls. -/
def addCalls : Nat → Scene Unit
  | 0 => Scene.new
  | n + 1 => (addCalls n).add_material mat0

/-- Material-table operations: `add_material` or `set_materials`. -/
inductive MatOp where
  | add (m : Material)
  | table (t : List (Nat × Material))

/-- The magnitude of a material-op sequence: how many `add_material` calls
it contains. -/
def addCount : List MatOp → Nat
  | [] => 0
  | .add _ :: rest => addCount rest + 1
  | .table _ :: rest => addCount rest

/-- The identifiers under which the successive `add_material` calls of a
material-op sequence insert, starting from scene `s`. -/
def assignedKeys {U : Type} : Scene U → List MatOp → List Nat
  | _, [] => []
  | s, .add m :: rest =>
    (s.id_counter + 1) % 256 :: assignedKeys (s.add_material m) rest
  | s, .table t :: rest => assignedKeys (s.set_materials t) rest

/-- A fully warmed-up concrete scene: both buffers cached, uniforms set. -/
def sceneA : Scene Unit :=
  { vertices := [], indices := [0, 1, 2],
    vertex_buffer := some ⟨[]⟩,
    index_buffer := some ⟨.TrianglesList, [0, 1, 2]⟩,
    uniforms := some (), materials := [], id_counter := 0 }

/-- A concrete scene with indices set but uniforms never supplied. -/
def sceneB : Scene Unit :=
  { vertices := [], indices := [0, 1, 2],
    vertex_buffer := none, index_buffer := none,
    uniforms := none, materials := [], id_counter := 0 }

/-- A concrete scene with geometry and uniforms set, buffers absent. -/
def sceneC : Scene Unit :=
  { vertices := [Vertex.new 0.0 0.0 0.0], indices := [0, 1, 2],
    vertex_buffer := none, index_buffer := none,
    uniforms := some (), materials := [], id_counter := 0 }

/-- C7: `Vertex::new(x, y, z)` yields pos `(x,y,z)`, uv `(0,1)`,
material id `0`. -/
theorem vertex_new_spec (x y z : Float) :
    (Vertex.new x y z).pos = (x, y, z) ∧
    (Vertex.new x y z).uv = (0.0, 1.0) ∧
    (Vertex.new x y z).material_id = 0 :=
  ⟨rfl, rfl, rfl⟩

/-- C2: `set_vertices` replaces the vertex sequence wholesale and sets both
cached buffers to absent; `set_indices` replaces the index sequence
wholesale and sets both cached buffers to absent. -/
theorem set_vertices_set_indices_spec {U : Type} (s : Scene U)
    (vs : List Vertex) (idxs : List Nat) :
    (s.set_vertices vs).vertices = vs ∧
    (s.set_vertices vs).vertex_buffer = none ∧
    (s.set_vertices vs).index_buffer = none ∧
    (s.set_indices idxs).indices = idxs ∧
    (s.set_indices idxs).vertex_buffer = none ∧
    (s.set_indices idxs).index_buffer = none :=
  ⟨rfl, rfl, rfl, rfl, rfl, rfl⟩

/-- C3: `set_materials`, `add_material` and `set_uniforms` leave both cached
GPU buffers unchanged. -/
theorem material_uniform_ops_preserve_buffers {U : Type} (s : Scene U)
    (m : List (Nat × Material)) (mat : Material) (u : U) :
    (s.set_materials m).vertex_buffer = s.vertex_buffer ∧
    (s.set_materials m).index_buffer = s.index_buffer ∧
    (s.add_material mat).vertex_buffer = s.vertex_buffer ∧
    (s.add_material mat).index_buffer = s.index_buffer ∧
    (s.set_uniforms u).vertex_buffer = s.vertex_buffer ∧
    (s.set_uniforms u).index_buffer = s.index_buffer :=
  ⟨rfl, rfl, rfl, rfl, rfl, rfl⟩

theorem update_vertex_buffer_none {U Prog : Type} (s : Scene U)
    (h : s.vertex_buffer = none) :
    @Scene.update_vertex_buffer U Prog s =
      ({ s with vertex_buffer := some ⟨s.vertices⟩ },
        [.createVertexBuffer s.vertices]) := by
  simp [Scene.update_vertex_buffer, Scene.get_vertex_buffer, h]

theorem update_vertex_buffer_some {U Prog : Type} (s : Scene U)
    (b : VertexBufferObj) (h : s.vertex_buffer = some b) :
    @Scene.update_vertex_buffer U Prog s = (s, []) := by
  simp [Scene.update_vertex_buffer, h]

theorem update_index_buffer_some {U Prog : Type} (s : Scene U)
    (b : IndexBufferObj) (h : s.index_buffer = some b) :
    @Scene.update_index_buffer U Prog s = .ok (s, []) := by
  simp [Scene.update_index_buffer, h]

theorem update_index_buffer_none_nil {U Prog : Type} (s : Scene U)
    (h : s.index_buffer = none) (hi : s.indices = []) :
    @Scene.update_index_buffer U Prog s = .error .missingIndices := by
  simp [Scene.update_index_buffer, Scene.get_index_buffer, h, hi]

theorem update_index_buffer_none_cons {U Prog : Type} (s : Scene U)
    (i : Nat) (rest : List Nat) (h : s.index_buffer = none)
    (hi : s.indices = i :: rest) :
    @Scene.update_index_buffer U Prog s =
      .ok ({ s with index_buffer := some ⟨.TrianglesList, s.indices⟩ },
        [.createIndexBuffer .TrianglesList s.indices]) := by
  simp [Scene.update_index_buffer, Scene.get_index_buffer, h, hi]

theorem draw_countVB {U Prog : Type} (s : Scene U) (prog : Prog) :
    countVB (s.draw prog).cmds = if s.vertex_buffer.isNone then 1 else 0 := by
  obtain ⟨vs, idxs, vb, ib, un, mats, c⟩ := s
  cases vb <;> cases ib <;> cases un <;> cases idxs <;>
    simp [Scene.draw, Scene.update_vertex_buffer, Scene.update_index_buffer,
      Scene.get_vertex_buffer, Scene.get_index_buffer, countVB,
      isCreateVB, List.filter]

theorem draw_countIB_ok {U Prog : Type} (s : Scene U) (prog : Prog)
    (h : (s.draw prog).result = .ok ()) :
    countIB (s.draw prog).cmds = if s.index_buffer.isNone then 1 else 0 := by
  obtain ⟨vs, idxs, vb, ib, un, mats, c⟩ := s
  cases vb <;> cases ib <;> cases un <;> cases idxs <;>
    simp_all [Scene.draw, Scene.update_vertex_buffer, Scene.update_index_buffer,
      Scene.get_vertex_buffer, Scene.get_index_buffer, countIB,
      isCreateIB, List.filter]

theorem draw_preserves_vb {U Prog : Type} (s : Scene U) (prog : Prog)
    (b : VertexBufferObj) (h : s.vertex_buffer = some b) :
    (s.draw prog).scene.vertex_buffer = some b := by
  obtain ⟨vs, idxs, vb, ib, un, mats, c⟩ := s
  cases ib <;> cases un <;> cases idxs <;>
    simp_all [Scene.draw, Scene.update_vertex_buffer, Scene.update_index_buffer,
      Scene.get_vertex_buffer, Scene.get_index_buffer]

theorem draw_preserves_ib {U Prog : Type} (s : Scene U) (prog : Prog)
    (b : IndexBufferObj) (h : s.index_buffer = some b) :
    (s.draw prog).scene.index_buffer = some b := by
  obtain ⟨vs, idxs, vb, ib, un, mats, c⟩ := s
  cases vb <;> cases un <;> cases idxs <;>
    simp_all [Scene.draw, Scene.update_vertex_buffer, Scene.update_index_buffer,
      Scene.get_vertex_buffer, Scene.get_index_buffer]

/-- C1: a call to `draw` uploads a vertex buffer exactly when the cached one
is absent; on a successful draw it uploads an index buffer exactly when the
cached one was absent; buffers that are present are reused unchanged and not
re-uploaded; a buffer goes from absent to present only through `draw`, and
from present to absent only through `set_vertices` or `set_indices`. -/
theorem draw_cache_discipline {U Prog : Type} (s : Scene U) (prog : Prog)
    (op : Op U Prog) :
    (countVB (s.draw prog).cmds = if s.vertex_buffer.isNone then 1 else 0) ∧
    ((s.draw prog).result = .ok () →
      countIB (s.draw prog).cmds = if s.index_buffer.isNone then 1 else 0) ∧
    (∀ b, s.vertex_buffer = some b →
      (s.draw prog).scene.vertex_buffer = some b ∧
        countVB (s.draw prog).cmds = 0) ∧
    (∀ b, s.index_buffer = some b →
      (s.draw prog).scene.index_buffer = some b ∧
        countIB (s.draw prog).cmds = 0) ∧
    (s.vertex_buffer = none → ((applyOp s op).vertex_buffer).isSome = true →
      ∃ p, op = .draw p) ∧
    (s.index_buffer = none → ((applyOp s op).index_buffer).isSome = true →
      ∃ p, op = .draw p) ∧
    (s.vertex_buffer ≠ none → (applyOp s op).vertex_buffer = none →
      (∃ vs, op = .set_vertices vs) ∨ (∃ idxs, op = .set_indices idxs)) ∧
    (s.index_buffer ≠ none → (applyOp s op).index_buffer = none →
      (∃ vs, op = .set_vertices vs) ∨ (∃ idxs, op = .set_indices idxs)) := by
  refine ⟨draw_countVB s prog, draw_countIB_ok s prog, ?_, ?_, ?_, ?_, ?_, ?_⟩
  · intro b hb
    refine ⟨draw_preserves_vb s prog b hb, ?_⟩
    rw [draw_countVB s prog, hb]
    simp
  · intro b hb
    refine ⟨draw_preserves_ib s prog b hb, ?_⟩
    have hok : (s.draw prog).result = .ok () ∨
        countIB (s.draw prog).cmds = 0 := by
      obtain ⟨vs, idxs, vb, ib, un, mats, c⟩ := s
      cases vb <;> cases un <;> cases idxs <;>
        simp_all [Scene.draw, Scene.update_vertex_buffer,
          Scene.update_index_buffer, Scene.get_vertex_buffer,
          Scene.get_index_buffer, countIB, isCreateIB, List.filter]
    rcases hok with hok | hok
    · rw [draw_countIB_ok s prog hok, hb]
      simp
    · exact hok
  · intro hnone hsome
    cases op with
    | draw p => exact ⟨p, rfl⟩
    | set_vertices vs => simp [applyOp, Scene.set_vertices] at hsome
    | set_indices idxs => simp [applyOp, Scene.set_indices] at hsome
    | set_materials m => simp [applyOp, Scene.set_materials, hnone] at hsome
    | add_material mat => simp [applyOp, Scene.add_material, hnone] at hsome
    | set_uniforms u => simp [applyOp, Scene.set_uniforms, hnone] at hsome
  · intro hnone hsome
    cases op with
    | draw p => exact ⟨p, rfl⟩
    | set_vertices vs => simp [applyOp, Scene.set_vertices] at hsome
    | set_indices idxs => simp [applyOp, Scene.set_indices] at hsome
    | set_materials m => simp [applyOp, Scene.set_materials, hnone] at hsome
    | add_material mat => simp [applyOp, Scene.add_material, hnone] at hsome
    | set_uniforms u => simp [applyOp, Scene.set_uniforms, hnone] at hsome
  · intro hsome hnone
    cases op with
    | set_vertices vs => exact Or.inl ⟨vs, rfl⟩
    | set_indices idxs => exact Or.inr ⟨idxs, rfl⟩
    | set_materials m => exact absurd hnone (by simpa [applyOp, Scene.set_materials] using hsome)
    | add_material mat => exact absurd hnone (by simpa [applyOp, Scene.add_material] using hsome)
    | set_uniforms u => exact absurd hnone (by simpa [applyOp, Scene.set_uniforms] using hsome)
    | draw p =>
      obtain ⟨b, hb⟩ := Option.ne_none_iff_exists'.mp hsome
      exact absurd hnone (by simp [applyOp, draw_preserves_vb s p b hb])
  · intro hsome hnone
    cases op with
    | set_vertices vs => exact Or.inl ⟨vs, rfl⟩
    | set_indices idxs => exact Or.inr ⟨idxs, rfl⟩
    | set_materials m => exact absurd hnone (by simpa [applyOp, Scene.set_materials] using hsome)
    | add_material mat => exact absurd hnone (by simpa [applyOp, Scene.add_material] using hsome)
    | set_uniforms u => exact absurd hnone (by simpa [applyOp, Scene.set_uniforms] using hsome)
    | draw p =>
      obtain ⟨b, hb⟩ := Option.ne_none_iff_exists'.mp hsome
      exact absurd hnone (by simp [applyOp, draw_preserves_ib s p b hb])

/-- Witness for C1 at concrete scenes: a warmed-up scene redraws with no
uploads and keeps its cached buffers; a fresh scene gains a vertex buffer
only through a `draw` operation; only a geometry setter clears a cached
buffer. -/
theorem draw_cache_discipline_witness :
    countVB (sceneA.draw ()).cmds = 0 ∧
    countIB (sceneA.draw ()).cmds = 0 ∧
    (sceneA.draw ()).scene.vertex_buffer = some ⟨[]⟩ ∧
    (sceneA.draw ()).scene.index_buffer = some ⟨.TrianglesList, [0, 1, 2]⟩ ∧
    (∃ p, (Op.draw () : Op Unit Unit) = Op.draw p) ∧
    ((∃ vs, (Op.set_vertices [] : Op Unit Unit) = Op.set_vertices vs) ∨
      (∃ idxs, (Op.set_vertices [] : Op Unit Unit) = Op.set_indices idxs)) := by
  have h1 := draw_cache_discipline sceneA () (Op.draw () : Op Unit Unit)
  have h2 := draw_cache_discipline (Scene.new : Scene Unit) ()
    (Op.draw () : Op Unit Unit)
  have h3 := draw_cache_discipline sceneA () (Op.set_vertices [] : Op Unit Unit)
  refine ⟨?_, ?_, ?_, ?_, ?_, ?_⟩
  · simpa [sceneA] using h1.1
  · simpa [sceneA] using h1.2.1 rfl
  · exact (h1.2.2.1 ⟨[]⟩ rfl).1
  · exact (h1.2.2.2.1 ⟨.TrianglesList, [0, 1, 2]⟩ rfl).1
  · exact h2.2.2.2.2.1 rfl rfl
  · exact h3.2.2.2.2.2.2.1 (by simp [sceneA]) rfl

/-- C5: on a scene with an empty index list and no cached index buffer,
`draw` fails with the distinct `missingIndices` condition, whose message is
the explicit "Missing indices" panic, before any frame command (acquire,
clear, draw call, present) is issued and without uploading an index
buffer. -/
theorem draw_missing_indices {U Prog : Type} (s : Scene U) (prog : Prog)
    (hi : s.indices = []) (hib : s.index_buffer = none) :
    (s.draw prog).result = .error .missingIndices ∧
    DrawError.message .missingIndices = "Missing indices" ∧
    (s.draw prog).cmds.all (fun c => !isFrameCmd c) = true ∧
    countIB (s.draw prog).cmds = 0 := by
  obtain ⟨vs, idxs, vb, ib, un, mats, c⟩ := s
  subst hi hib
  cases vb <;>
    simp [Scene.draw, Scene.update_vertex_buffer, Scene.update_index_buffer,
      Scene.get_vertex_buffer, Scene.get_index_buffer, countIB,
      isCreateIB, isFrameCmd, List.filter, DrawError.message]

/-- Witness for C5: the fresh scene has empty indices and no index buffer,
and its draw fails exactly as stated. -/
theorem draw_missing_indices_witness :
    ((Scene.new : Scene Unit).draw ()).result = .error .missingIndices ∧
    DrawError.message .missingIndices = "Missing indices" ∧
    ((Scene.new : Scene Unit).draw ()).cmds.all (fun c => !isFrameCmd c) = true ∧
    countIB ((Scene.new : Scene Unit).draw ()).cmds = 0 :=
  draw_missing_indices (Scene.new : Scene Unit) () rfl rfl

/-- Counterexample to C6 as stated: the fresh scene never had
`set_uniforms` called, yet its `draw` fails with the missing-indices
condition, not the missing-uniforms one. -/
theorem draw_fresh_no_uniforms_fails_missing_indices :
    ((Scene.new : Scene Unit).uniforms = none) ∧
    ((Scene.new : Scene Unit).draw ()).result = .error .missingIndices ∧
    DrawError.missingIndices ≠ DrawError.missingUniforms :=
  ⟨rfl, rfl, by decide⟩

/-- C6 (amended): on a scene with no uniform bundle set whose index step
succeeds (nonempty indices or a cached index buffer), `draw` fails with the
distinct `missingUniforms` condition — message "Cannot draw before
specifing uniforms" — no frame command is issued, and no default bundle is
substituted (the scene still has no uniforms afterwards). -/
theorem draw_missing_uniforms {U Prog : Type} (s : Scene U) (prog : Prog)
    (hu : s.uniforms = none) (h : s.indices ≠ [] ∨ s.index_buffer ≠ none) :
    (s.draw prog).result = .error .missingUniforms ∧
    DrawError.message .missingUniforms = "Cannot draw before specifing uniforms" ∧
    (s.draw prog).cmds.all (fun c => !isFrameCmd c) = true ∧
    (s.draw prog).scene.uniforms = none := by
  obtain ⟨vs, idxs, vb, ib, un, mats, c⟩ := s
  subst hu
  cases vb <;> cases ib <;> cases idxs <;>
    simp_all [Scene.draw, Scene.update_vertex_buffer, Scene.update_index_buffer,
      Scene.get_vertex_buffer, Scene.get_index_buffer,
      isFrameCmd, List.filter, DrawError.message]

/-- Witness for the amended C6 at the concrete scene `sceneB`. -/
theorem draw_missing_uniforms_witness :
    (sceneB.draw ()).result = .error .missingUniforms ∧
    DrawError.message .missingUniforms = "Cannot draw before specifing uniforms" ∧
    (sceneB.draw ()).cmds.all (fun c => !isFrameCmd c) = true ∧
    (sceneB.draw ()).scene.uniforms = none :=
  draw_missing_uniforms sceneB () rfl (Or.inl (by simp [sceneB]))

theorem addCalls_counter (n : Nat) : (addCalls n).id_counter = n % 256 := by
  induction n with
  | zero => rfl
  | succ n ih =>
    show ((addCalls n).add_material mat0).id_counter = (n + 1) % 256
    rw [Scene.add_material]
    simp only [ih]
    omega

theorem addCalls_head (n : Nat) :
    (addCalls (n + 1)).materials.head? = some ((n + 1) % 256, mat0) := by
  show ((addCalls n).add_material mat0).materials.head? = _
  rw [Scene.add_material]
  simp [Scene.mapInsert, addCalls_counter]

theorem assignedKeys_eq_range {U : Type} (ops : List MatOp) (s : Scene U)
    (h : s.id_counter + addCount ops ≤ 255) :
    assignedKeys s ops = List.range' (s.id_counter + 1) (addCount ops) := by
  induction ops generalizing s with
  | nil => simp [assignedKeys, addCount]
  | cons op rest ih =>
    cases op with
    | add m =>
      have hcnt : addCount (.add m :: rest) = addCount rest + 1 := rfl
      rw [hcnt] at h
      have hmod : (s.id_counter + 1) % 256 = s.id_counter + 1 :=
        Nat.mod_eq_of_lt (by omega)
      have hcounter : (s.add_material m).id_counter = s.id_counter + 1 := by
        rw [Scene.add_material]; exact hmod
      have ih2 := ih (s.add_material m) (by rw [hcounter]; omega)
      show (s.id_counter + 1) % 256 :: assignedKeys (s.add_material m) rest = _
      rw [hmod, ih2, hcounter, hcnt, List.range'_succ]
    | table t =>
      have hcnt : addCount (.table t :: rest) = addCount rest := rfl
      rw [hcnt] at h
      have hcounter : (s.set_materials t).id_counter = s.id_counter := rfl
      have ih2 := ih (s.set_materials t) (by rw [hcounter]; omega)
      show assignedKeys (s.set_materials t) rest = _
      rw [ih2, hcounter, hcnt]

/-- Counterexample to C4 as stated: from a fresh scene, the 255th
`add_material` call inserts under identifier 255, but the 256th call wraps
the `u8` counter and inserts under identifier 0 — so over an unbounded
sequence of calls the assigned identifiers are not strictly increasing (and
the reserved key 0 is reused). -/
theorem add_material_key_wraps_at_256 :
    (addCalls 255).materials.head? = some (255, mat0) ∧
    (addCalls 256).materials.head? = some (0, mat0) ∧
    ¬ (255 : Nat) < 0 := by
  refine ⟨?_, ?_, by omega⟩
  · have h := addCalls_head 254
    simpa using h
  · have h := addCalls_head 255
    simpa using h

/-- C4 (amended): from a fresh scene, along any interleaving of
`add_material` and `set_materials` calls containing at most 255
`add_material` calls, the identifiers under which `add_material` inserts
are exactly 1, 2, …, n — strictly increasing from 1, never reusing any
identifier — and `set_materials` never changes the auto-increment counter;
beyond 255 additions the `u8` counter wraps (see C9). -/
theorem add_material_keys_strictly_increasing (ops : List MatOp)
    (h : addCount ops ≤ 255) :
    assignedKeys (Scene.new : Scene Unit) ops = List.range' 1 (addCount ops) ∧
    List.Pairwise (· < ·) (assignedKeys (Scene.new : Scene Unit) ops) ∧
    (assignedKeys (Scene.new : Scene Unit) ops).Nodup ∧
    ∀ (s : Scene Unit) (t : List (Nat × Material)),
      (s.set_materials t).id_counter = s.id_counter := by
  have heq := assignedKeys_eq_range ops (Scene.new : Scene Unit)
    (by simpa [Scene.new] using h)
  have heq1 : assignedKeys (Scene.new : Scene Unit) ops =
      List.range' 1 (addCount ops) := by simpa [Scene.new] using heq
  refine ⟨heq1, ?_, ?_, fun s t => rfl⟩
  · rw [heq1]; exact List.pairwise_lt_range' 1 (addCount ops)
  · rw [heq1]; exact List.nodup_range' 1 (addCount ops)

/-- Witness for the amended C4: two additions interleaved with a
`set_materials` call assign identifiers 1 and 2. -/
theorem add_material_keys_strictly_increasing_witness :
    assignedKeys (Scene.new : Scene Unit)
        [.add mat0, .table [], .add mat0] = [1, 2] ∧
    List.Pairwise (· < ·)
      (assignedKeys (Scene.new : Scene Unit)
        [.add mat0, .table [], .add mat0]) := by
  have h := add_material_keys_strictly_increasing
    [.add mat0, .table [], .add mat0] (by simp [addCount])
  exact ⟨by rw [h.1]; rfl, h.2.1⟩

/-- C9: `id_counter` is a `u8`: `add_material` advances it modulo 2^8, so
after 255 additions from a fresh scene the counter is 255, the 256th
addition wraps it to 0 and inserts under the reserved key 0, and the
identifier assigned by the 256th call is not greater than the one assigned
by the 255th. -/
theorem add_material_counter_wraps :
    (∀ (U : Type) (s : Scene U) (m : Material),
      (s.add_material m).id_counter = (s.id_counter + 1) % 256) ∧
    (addCalls 255).id_counter = 255 ∧
    (addCalls 256).id_counter = 0 ∧
    (addCalls 256).materials.head? = some (0, mat0) ∧
    ¬ (addCalls 255).id_counter < (addCalls 256).id_counter := by
  have h255 := addCalls_counter 255
  have h256 := addCalls_counter 256
  refine ⟨fun U s m => rfl, by simpa using h255, by simpa using h256, ?_, ?_⟩
  · simpa using addCalls_head 255
  · rw [h255, h256]; omega

/-- C8: on a scene with nonempty indices, uniforms set, and any cached
index buffer being a triangle list, `draw` succeeds and its command trace
is: the lazy buffer uploads for exactly the absent buffers, then acquire a
new frame, clear to opaque blue (0,0,1,1), one indexed triangle-list draw
call binding the cached vertex buffer, cached index buffer, the given
program and the stored uniforms with default draw parameters, then finish
the frame. -/
theorem draw_success_frame_sequence {U Prog : Type} (s : Scene U)
    (prog : Prog) (u : U) (hu : s.uniforms = some u) (hi : s.indices ≠ [])
    (hprim : ∀ b, s.index_buffer = some b → b.prim = .TrianglesList) :
    ∃ vb ib,
      (s.draw prog).scene.vertex_buffer = some vb ∧
      (s.draw prog).scene.index_buffer = some ib ∧
      ib.prim = .TrianglesList ∧
      (s.draw prog).result = .ok () ∧
      (s.draw prog).cmds =
        (if s.vertex_buffer.isNone then
          [.createVertexBuffer s.vertices] else []) ++
        (if s.index_buffer.isNone then
          [.createIndexBuffer .TrianglesList s.indices] else []) ++
        [.newFrame, .clearColor 0.0 0.0 1.0 1.0,
         .drawIndexed vb.data ib.prim ib.data prog u .default,
         .finishFrame] := by
  obtain ⟨vs, idxs, vb, ib, un, mats, c⟩ := s
  subst hu
  cases idxs with
  | nil => exact absurd rfl hi
  | cons i rest =>
    cases vb with
    | none =>
      cases ib with
      | none =>
        refine ⟨⟨vs⟩, ⟨.TrianglesList, i :: rest⟩, ?_, ?_, rfl, ?_, ?_⟩ <;>
          simp [Scene.draw, Scene.update_vertex_buffer,
            Scene.update_index_buffer, Scene.get_vertex_buffer,
            Scene.get_index_buffer]
      | some b =>
        have hb : b.prim = PrimitiveType.TrianglesList := hprim b rfl
        refine ⟨⟨vs⟩, b, ?_, ?_, hb, ?_, ?_⟩ <;>
          simp [Scene.draw, Scene.update_vertex_buffer,
            Scene.update_index_buffer, Scene.get_vertex_buffer,
            Scene.get_index_buffer]
    | some a =>
      cases ib with
      | none =>
        refine ⟨a, ⟨.TrianglesList, i :: rest⟩, ?_, ?_, rfl, ?_, ?_⟩ <;>
          simp [Scene.draw, Scene.update_vertex_buffer,
            Scene.update_index_buffer, Scene.get_vertex_buffer,
            Scene.get_index_buffer]
      | some b =>
        have hb : b.prim = PrimitiveType.TrianglesList := hprim b rfl
        refine ⟨a, b, ?_, ?_, hb, ?_, ?_⟩ <;>
          simp [Scene.draw, Scene.update_vertex_buffer,
            Scene.update_index_buffer, Scene.get_vertex_buffer,
            Scene.get_index_buffer]

/-- Witness for C8 at the concrete scene `sceneC`. -/
theorem draw_success_frame_sequence_witness :
    (sceneC.draw ()).result = .ok () ∧
    ∃ ib, (sceneC.draw ()).scene.index_buffer = some ib ∧
      ib.prim = .TrianglesList := by
  obtain ⟨vb, ib, h1, h2, h3, h4, h5⟩ :=
    draw_success_frame_sequence sceneC () () rfl (by simp [sceneC])
      (by simp [sceneC])
  exact ⟨h4, ib, h2, h3⟩

/-- C10: `draw` is not atomic on failure — when it fails with the
missing-indices condition (or the missing-uniforms condition), the vertex
buffer built in the first step has already been stored in the cache, so the
failing call changes the scene and a subsequent `draw` reuses that vertex
buffer without uploading another. -/
theorem draw_not_atomic_on_failure {U Prog : Type} (s : Scene U)
    (prog : Prog) :
    (s.vertex_buffer = none → s.indices = [] → s.index_buffer = none →
      (s.draw prog).result = .error .missingIndices ∧
      (s.draw prog).scene.vertex_buffer = some ⟨s.vertices⟩ ∧
      countVB ((s.draw prog).scene.draw prog).cmds = 0) ∧
    (s.vertex_buffer = none → s.uniforms = none → s.indices ≠ [] →
      (s.draw prog).result = .error .missingUniforms ∧
      (s.draw prog).scene.vertex_buffer = some ⟨s.vertices⟩ ∧
      countVB ((s.draw prog).scene.draw prog).cmds = 0) := by
  constructor
  · intro hvb hi hib
    have hscene : (s.draw prog).scene.vertex_buffer = some ⟨s.vertices⟩ := by
      obtain ⟨vs, idxs, vb, ib, un, mats, c⟩ := s
      subst hvb hi hib
      simp [Scene.draw, Scene.update_vertex_buffer,
        Scene.update_index_buffer, Scene.get_vertex_buffer,
        Scene.get_index_buffer]
    refine ⟨?_, hscene, ?_⟩
    · obtain ⟨vs, idxs, vb, ib, un, mats, c⟩ := s
      subst hvb hi hib
      simp [Scene.draw, Scene.update_vertex_buffer,
        Scene.update_index_buffer, Scene.get_vertex_buffer,
        Scene.get_index_buffer]
    · rw [draw_countVB]
      simp [hscene]
  · intro hvb hu hi
    obtain ⟨i, rest, hidx⟩ : ∃ i rest, s.indices = i :: rest := by
      cases hx : s.indices with
      | nil => exact absurd hx hi
      | cons i rest => exact ⟨i, rest, rfl⟩
    have hscene : (s.draw prog).scene.vertex_buffer = some ⟨s.vertices⟩ := by
      obtain ⟨vs, idxs, vb, ib, un, mats, c⟩ := s
      subst hvb hu
      simp only at hidx
      subst hidx
      cases ib <;>
        simp [Scene.draw, Scene.update_vertex_buffer,
          Scene.update_index_buffer, Scene.get_vertex_buffer,
          Scene.get_index_buffer]
    refine ⟨?_, hscene, ?_⟩
    · obtain ⟨vs, idxs, vb, ib, un, mats, c⟩ := s
      subst hvb hu
      simp only at hidx
      subst hidx
      cases ib <;>
        simp [Scene.draw, Scene.update_vertex_buffer,
          Scene.update_index_buffer, Scene.get_vertex_buffer,
          Scene.get_index_buffer]
    · rw [draw_countVB]
      simp [hscene]

/-- Witness for C10: the fresh scene exercises the missing-indices branch
and `sceneB` the missing-uniforms branch, each storing the vertex buffer
despite failing. -/
theorem draw_not_atomic_on_failure_witness :
    (((Scene.new : Scene Unit).draw ()).result = .error .missingIndices ∧
      ((Scene.new : Scene Unit).draw ()).scene.vertex_buffer = some ⟨[]⟩ ∧
      countVB (((Scene.new : Scene Unit).draw ()).scene.draw ()).cmds = 0) ∧
    ((sceneB.draw ()).result = .error .missingUniforms ∧
      (sceneB.draw ()).scene.vertex_buffer = some ⟨[]⟩ ∧
      countVB ((sceneB.draw ()).scene.draw ()).cmds = 0) := by
  constructor
  · exact (draw_not_atomic_on_failure (Scene.new : Scene Unit) ()).1
      rfl rfl rfl
  · exact (draw_not_atomic_on_failure sceneB ()).2 rfl rfl (by simp [sceneB])
